import Mathlib

/-!
Verification of the MS SQL sync stored-procedure generator (src/Hello.py).

The core of the repository is a pure code generator: `default_value` maps a
SQL type string to a null-coalescing fallback literal, and
`generate_stored_procedure` maps a target table reference, a source table
reference and an ordered column list to the full text of a synchronizing
stored procedure (UPDATE changed rows, DELETE vanished rows, INSERT new
rows).  This file gives a shallow embedding of that generator and proves the
specified properties of it.

Python strings are modelled by `String`; Python's `in` substring test,
`str.replace` and `str.join` are modelled by the executable helpers
`containsStr`, `replaceAll` and `joinSep` below.  SQL single quotes inside
string literals are written with the escape \x27.
-/

/-- Boolean test that the first character list is a prefix of the second. -/
def isPrefixOfB : List Char → List Char → Bool
  | [], _ => true
  | _ :: _, [] => false
  | a :: as, b :: bs => a == b && isPrefixOfB as bs

/-- Boolean test that `pat` occurs as a contiguous run inside `s`. -/
def isInfixB (pat : List Char) : List Char → Bool
  | [] => isPrefixOfB pat []
  | c :: rest => isPrefixOfB pat (c :: rest) || isInfixB pat rest

/-- Python's substring test: `containsStr s pat` models `pat in s`. -/
def containsStr (s pat : String) : Bool :=
  isInfixB pat.data s.data

/-- Fuelled worker for `replaceAll`; one unit of fuel per character of the
scanned list suffices because each step consumes at least one character. -/
def replaceFuel (pat rep : List Char) : Nat → List Char → List Char
  | _, [] => []
  | 0, s => s
  | fuel + 1, c :: rest =>
    if !pat.isEmpty && isPrefixOfB pat (c :: rest) then
      rep ++ replaceFuel pat rep fuel ((c :: rest).drop pat.length)
    else
      c :: replaceFuel pat rep fuel rest

/-- Python's `s.replace(pat, rep)`: replace every non-overlapping occurrence
of `pat` in `s` by `rep`, scanning left to right. -/
def replaceAll (s pat rep : String) : String :=
  String.mk (replaceFuel pat.data rep.data s.data.length s.data)

/-- Python's `sep.join(strings)`. -/
def joinSep (sep : String) : List String → String
  | [] => ""
  | x :: xs =>
    match xs with
    | [] => x
    | _ :: _ => x ++ sep ++ joinSep sep xs

/-- Hello.py, `default_value`: map a column's SQL type string to the literal
used as the null-coalescing fallback for that column. -/
def default_value (data_type : String) : String :=
  if containsStr data_type "uniqueidentifier" then
    "\x2700000000-0000-0000-0000-000000000000\x27"
  else if containsStr data_type "int" || containsStr data_type "decimal" then
    "0"
  else if containsStr data_type "bit" then
    "0"
  else
    "\x27\x27"

/-- A column specification: a name and a SQL type, both strings. -/
structure Column where
  name : String
  type : String

/-- Hello.py line 33: the procedure name derived from the target table
reference by deleting every occurrence of `[dbo].[` and of `]` and
prefixing `stp_sync_`. -/
def procedure_name (target_table : String) : String :=
  "stp_sync_" ++ replaceAll (replaceAll target_table "[dbo].[" "") "]" ""

/-- Hello.py line 42, one element of the SET-clause comprehension. -/
def set_entry (col : Column) : String :=
  if !(containsStr col.type "uniqueidentifier") then
    "target." ++ col.name ++ " = COALESCE(src." ++ col.name ++ ", " ++ default_value col.type ++ ")"
  else
    "target." ++ col.name ++ " = ISNULL(src." ++ col.name ++ ", \x2700000000-0000-0000-0000-000000000000\x27)"

/-- Hello.py lines 41-42, the joined SET clause. -/
def set_statements (columns : List Column) : String :=
  joinSep ",\n        " (columns.map set_entry)

/-- Hello.py lines 44-47, one element of the WHERE-clause comprehension. -/
def where_entry (col : Column) : String :=
  "COALESCE(target." ++ col.name ++ ", " ++ default_value col.type ++ ") <> COALESCE(src." ++
    col.name ++ ", " ++ default_value col.type ++ ")" ++
    (if containsStr col.type "nvarchar" then " COLLATE DATABASE_DEFAULT" else "")

/-- Hello.py lines 43-48, the joined WHERE clause of the UPDATE. -/
def where_conditions (columns : List Column) : String :=
  joinSep " OR\n        " (columns.map where_entry)

/-- Hello.py line 85, the INSERT column-name list before joining. -/
def insert_list (columns : List Column) : List String :=
  columns.map (fun col => col.name)

/-- Hello.py line 85, the joined INSERT column list. -/
def insert_columns (columns : List Column) : String :=
  joinSep ",\n        " (insert_list columns)

/-- Hello.py line 88, one element of the SELECT-list comprehension. -/
def select_entry (col : Column) : String :=
  if containsStr col.type "uniqueidentifier" then
    "ISNULL(src." ++ col.name ++ ", \x2700000000-0000-0000-0000-000000000000\x27)"
  else
    "COALESCE(src." ++ col.name ++ ", " ++ default_value col.type ++ ")"

/-- Hello.py line 88, the SELECT value list before joining. -/
def select_list (columns : List Column) : List String :=
  columns.map select_entry

/-- Hello.py line 88, the joined SELECT value list. -/
def select_values (columns : List Column) : String :=
  joinSep ",\n        " (select_list columns)

/-- Hello.py lines 50-98: the list of script lines, in order.  The Python
local `first_column_name` is the explicit argument `k`. -/
def scriptLines (target_table source_table : String) (columns : List Column) (k : String) :
    List String :=
  [ "USE [DW]",
    "GO",
    "/****** Object:  StoredProcedure [dbo].[" ++ procedure_name target_table ++ "] ******/",
    "SET ANSI_NULLS ON",
    "GO",
    "SET QUOTED_IDENTIFIER ON",
    "GO",
    "CREATE OR ALTER PROCEDURE [dbo].[" ++ procedure_name target_table ++ "]",
    "AS",
    "BEGIN",
    "    SET NOCOUNT ON;",
    "    -- Update existing records only if changes are detected",
    "    UPDATE target",
    "    SET ",
    "        " ++ set_statements columns,
    "    FROM ",
    "        " ++ target_table ++ " target",
    "    INNER JOIN ",
    "        " ++ source_table ++ " src",
    "    ON ",
    "        target." ++ k ++ " = src." ++ k,
    "    WHERE ",
    "        " ++ where_conditions columns ++ ";",
    "    -- Delete records that no longer exist in the source",
    "    DELETE target",
    "    FROM ",
    "        " ++ target_table,
    "    WHERE NOT EXISTS (",
    "        SELECT 1",
    "        FROM " ++ source_table,
    "        WHERE target." ++ k ++ " = src." ++ k,
    "    );",
    "    -- Insert new records",
    "    INSERT INTO " ++ target_table ++ " (",
    "        " ++ insert_columns columns,
    "    )",
    "    SELECT ",
    "        " ++ select_values columns,
    "    FROM ",
    "        " ++ source_table,
    "    WHERE NOT EXISTS (",
    "        SELECT 1",
    "        FROM " ++ target_table ++ " target",
    "        WHERE target." ++ k ++ " = src." ++ k,
    "    );",
    "END",
    "GO" ]

/-- Hello.py lines 32-100, `generate_stored_procedure`.  Raising `ValueError`
is modelled as returning `Except.error` with the raised message; a normal
return is `Except.ok` with the joined script text. -/
def generate_stored_procedure (target_table source_table : String) (columns : List Column) :
    Except String String :=
  match columns with
  | [] => Except.error "No columns provided for the stored procedure."
  | first :: _ =>
    Except.ok (joinSep "\n" (scriptLines target_table source_table columns first.name))

set_option maxRecDepth 20000

/-- The first line of a string: its characters up to the first newline. -/
def firstLine (s : String) : String :=
  String.mk (s.data.takeWhile (fun c => c != Char.ofNat 10))

/-- Modelled from the spec, section 4.2: the identifier transform the spec
describes, stripping the literal substrings that the spec names, namely
the text open-bracket d b o close-bracket dot, and then every close
bracket.  Compare with `procedure_name`, which embeds the source. -/
def spec_strip (t : String) : String :=
  replaceAll (replaceAll t "[dbo]." "") "]" ""

/-- Modelled from the amended claim C4: the identifier transform actually
performed by the source strips the five-character-longer text that ends
with a second open bracket, and then every close bracket. -/
def amended_strip (t : String) : String :=
  replaceAll (replaceAll t "[dbo].[" "") "]" ""

/-- Modelled from the spec, section 4.3: one WHERE-clause predicate,
comparing the target and source values of a column with both sides
coalesced to the same type-derived default, collation-qualified exactly
when the type contains nvarchar. -/
def spec_where_entry (col : Column) : String :=
  "COALESCE(target." ++ col.name ++ ", " ++ default_value col.type ++ ") <> COALESCE(src." ++
    col.name ++ ", " ++ default_value col.type ++ ")" ++
    (if containsStr col.type "nvarchar" then " COLLATE DATABASE_DEFAULT" else "")

theorem prefixB_refl (l : List Char) : isPrefixOfB l l = true := by
  induction l with
  | nil => rfl
  | cons a as ih => simp [isPrefixOfB, ih]

theorem prefixB_append (p s t : List Char) (h : isPrefixOfB p s = true) :
    isPrefixOfB p (s ++ t) = true := by
  induction p generalizing s with
  | nil => rfl
  | cons a as ih =>
    cases s with
    | nil => simp [isPrefixOfB] at h
    | cons b bs =>
      simp only [isPrefixOfB, Bool.and_eq_true, beq_iff_eq] at h
      simp only [List.cons_append, isPrefixOfB, Bool.and_eq_true, beq_iff_eq]
      exact ⟨h.1, ih bs h.2⟩

theorem prefixB_self_append (s t : List Char) : isPrefixOfB s (s ++ t) = true :=
  prefixB_append s s t (prefixB_refl s)

theorem infixB_nil_pat (s : List Char) : isInfixB [] s = true := by
  cases s with
  | nil => rfl
  | cons c rest => simp [isInfixB, isPrefixOfB]

theorem infixB_of_prefixB (p s : List Char) (h : isPrefixOfB p s = true) :
    isInfixB p s = true := by
  cases s with
  | nil => exact h
  | cons c rest => simp [isInfixB, h]

theorem infixB_cons (p s : List Char) (c : Char) (h : isInfixB p s = true) :
    isInfixB p (c :: s) = true := by
  simp [isInfixB, h]

theorem infixB_append_left (p t s : List Char) (h : isInfixB p s = true) :
    isInfixB p (t ++ s) = true := by
  induction t with
  | nil => simpa using h
  | cons c ts ih => exact infixB_cons p (ts ++ s) c ih

theorem infixB_append_right (p s t : List Char) (h : isInfixB p s = true) :
    isInfixB p (s ++ t) = true := by
  induction s with
  | nil =>
    cases p with
    | nil => exact infixB_nil_pat t
    | cons a as => simp [isInfixB, isPrefixOfB] at h
  | cons c rest ih =>
    simp only [isInfixB, Bool.or_eq_true] at h
    rcases h with h | h
    · exact infixB_of_prefixB p ((c :: rest) ++ t) (prefixB_append p (c :: rest) t h)
    · exact infixB_cons p (rest ++ t) c (ih h)

theorem infixB_refl (l : List Char) : isInfixB l l = true :=
  infixB_of_prefixB l l (prefixB_refl l)

theorem contains_joinSep (sep : String) (lines : List String) (x pat : String)
    (hx : x ∈ lines) (hpat : isInfixB pat.data x.data = true) :
    containsStr (joinSep sep lines) pat = true := by
  induction lines with
  | nil => cases hx
  | cons y ys ih =>
    rcases List.mem_cons.mp hx with hxy | hxys
    · subst hxy
      cases ys with
      | nil => exact hpat
      | cons z zs =>
        show isInfixB pat.data (x ++ sep ++ joinSep sep (z :: zs)).data = true
        rw [String.data_append, String.data_append]
        exact infixB_append_right pat.data (x.data ++ sep.data) (joinSep sep (z :: zs)).data
          (infixB_append_right pat.data x.data sep.data hpat)
    · cases ys with
      | nil => cases hxys
      | cons z zs =>
        show isInfixB pat.data (y ++ sep ++ joinSep sep (z :: zs)).data = true
        rw [String.data_append, String.data_append]
        exact infixB_append_left pat.data (y.data ++ sep.data) (joinSep sep (z :: zs)).data
          (ih hxys)

/-- C1: for the worked example input, the generated script names the
procedure stp_sync_tbl_dw_Target, its UPDATE SET clause assigns
target.Id = COALESCE(src.Id, 0), its UPDATE WHERE clause compares Name
with a collation qualifier, it contains a DELETE keyed on the join
condition target.Id = src.Id, and its INSERT lists the columns Id, Name
with the matching SELECT values COALESCE(src.Id, 0) and
COALESCE(src.Name, single-quoted empty string). -/
theorem C1_end_to_end_example :
    ∃ s,
      generate_stored_procedure "[dbo].[tbl_dw_Target]" "[SRV-SQL].[DB].[dbo].[Source]"
        [{ name := "Id", type := "int" }, { name := "Name", type := "nvarchar(50)" }] =
        Except.ok s ∧
      (containsStr s "stp_sync_tbl_dw_Target" &&
       containsStr s "target.Id = COALESCE(src.Id, 0)" &&
       containsStr s
         "COALESCE(target.Name, \x27\x27) <> COALESCE(src.Name, \x27\x27) COLLATE DATABASE_DEFAULT" &&
       containsStr s "DELETE target" &&
       containsStr s "WHERE target.Id = src.Id" &&
       containsStr s "INSERT INTO [dbo].[tbl_dw_Target] (\n        Id,\n        Name\n    )" &&
       containsStr s "COALESCE(src.Id, 0),\n        COALESCE(src.Name, \x27\x27)") = true :=
  ⟨_, rfl, by decide⟩

/-- C2: for every type string t, default_value returns the nil-GUID literal
exactly when t contains uniqueidentifier; otherwise it returns 0 exactly
when t contains int, decimal or bit; otherwise it returns the empty
single-quoted string.  The function is total, and uniqueidentifier takes
priority over the numeric matches. -/
theorem C2_default_value_mapping (t : String) :
    (default_value t = "\x2700000000-0000-0000-0000-000000000000\x27" ↔
      containsStr t "uniqueidentifier" = true) ∧
    (containsStr t "uniqueidentifier" = false →
      (default_value t = "0" ↔
        (containsStr t "int" || containsStr t "decimal" || containsStr t "bit") = true)) ∧
    (containsStr t "uniqueidentifier" = false →
      (containsStr t "int" || containsStr t "decimal" || containsStr t "bit") = false →
      default_value t = "\x27\x27") := by
  unfold default_value
  cases hu : containsStr t "uniqueidentifier" <;>
    cases hi : containsStr t "int" <;>
    cases hd : containsStr t "decimal" <;>
    cases hb : containsStr t "bit" <;>
      simp [hu, hi, hd, hb]

/-- Witness for C2 at concrete type strings. -/
theorem C2_default_value_mapping_witness :
    default_value "uniqueidentifier" = "\x2700000000-0000-0000-0000-000000000000\x27" ∧
    default_value "int" = "0" ∧
    default_value "date" = "\x27\x27" :=
  ⟨(C2_default_value_mapping "uniqueidentifier").1.mpr rfl,
   ((C2_default_value_mapping "int").2.1 rfl).mpr rfl,
   (C2_default_value_mapping "date").2.2 rfl rfl⟩

/-- C3: the generator fails, with the no-columns error and no script, on an
empty column list, and succeeds with a script on every non-empty column
list, whatever the two table strings are; this is the only failure. -/
theorem C3_empty_columns_guard (tt st : String) (cols : List Column) :
    (cols = [] →
      generate_stored_procedure tt st cols =
        Except.error "No columns provided for the stored procedure.") ∧
    (cols ≠ [] → ∃ s, generate_stored_procedure tt st cols = Except.ok s) := by
  refine ⟨fun h => by subst h; rfl, fun h => ?_⟩
  cases cols with
  | nil => exact absurd rfl h
  | cons c cs => exact ⟨_, rfl⟩

/-- Witness for C3: the guard fires on the empty list and a singleton list
succeeds. -/
theorem C3_empty_columns_guard_witness :
    generate_stored_procedure "[dbo].[T]" "[S]" [] =
      Except.error "No columns provided for the stored procedure." ∧
    ∃ s, generate_stored_procedure "[dbo].[T]" "[S]" [{ name := "Id", type := "int" }] =
      Except.ok s :=
  ⟨(C3_empty_columns_guard "[dbo].[T]" "[S]" []).1 rfl,
   (C3_empty_columns_guard "[dbo].[T]" "[S]" [{ name := "Id", type := "int" }]).2
     (List.cons_ne_nil _ _)⟩

/-- C4 counterexample: on the worked example target table the code strips
the seven-character text ending in a second open bracket, so the embedded
procedure name is stp_sync_tbl_dw_Target, while the transform the claim
describes, stripping the shorter text without that bracket, would leave a
stray open bracket; the two results differ, and the name the claim
predicts does not occur in the generated script. -/
theorem C4_counterexample :
    procedure_name "[dbo].[tbl_dw_Target]" = "stp_sync_tbl_dw_Target" ∧
    "stp_sync_" ++ spec_strip "[dbo].[tbl_dw_Target]" = "stp_sync_[tbl_dw_Target" ∧
    ¬ procedure_name "[dbo].[tbl_dw_Target]" =
        "stp_sync_" ++ spec_strip "[dbo].[tbl_dw_Target]" ∧
    (∃ s,
      generate_stored_procedure "[dbo].[tbl_dw_Target]" "[SRC].[T]"
        [{ name := "Id", type := "int" }] = Except.ok s ∧
      containsStr s "stp_sync_[tbl_dw_Target" = false) :=
  ⟨by decide, by decide, by decide, ⟨_, rfl, by decide⟩⟩

/-- C4 amended: for every target table, the procedure name embedded in the
output equals stp_sync_ prefixed to the result of stripping the literal
substrings consisting of bracket d b o bracket-dot-bracket (seven
characters) and the close bracket from the target table string, with no
validation of the result. -/
theorem C4_procedure_name_transform (tt st : String) (c : Column) (cs : List Column) :
    procedure_name tt = "stp_sync_" ++ amended_strip tt ∧
    ∃ s, generate_stored_procedure tt st (c :: cs) = Except.ok s ∧
      containsStr s
        ("CREATE OR ALTER PROCEDURE [dbo].[" ++ ("stp_sync_" ++ amended_strip tt) ++ "]") =
        true := by
  refine ⟨rfl, _, rfl, ?_⟩
  refine contains_joinSep "\n" (scriptLines tt st (c :: cs) c.name)
    ("CREATE OR ALTER PROCEDURE [dbo].[" ++ procedure_name tt ++ "]") _ ?_ ?_
  · simp [scriptLines]
  · exact infixB_refl _

/-- C5: for every non-empty column list the UPDATE WHERE clause is one
predicate per column, each comparing the target and source values with
both sides coalesced to the same type-derived default and carrying a
collation qualifier exactly when the type contains nvarchar, the
predicates joined with OR so that any single differing column triggers
the update; and that clause appears in the generated script. -/
theorem C5_update_where_clause (tt st : String) (c : Column) (cs : List Column) :
    (c :: cs).map where_entry = (c :: cs).map spec_where_entry ∧
    where_conditions (c :: cs) = joinSep " OR\n        " ((c :: cs).map spec_where_entry) ∧
    ∃ s, generate_stored_procedure tt st (c :: cs) = Except.ok s ∧
      containsStr s ("        " ++ where_conditions (c :: cs) ++ ";") = true := by
  refine ⟨rfl, rfl, _, rfl, ?_⟩
  refine contains_joinSep "\n" (scriptLines tt st (c :: cs) c.name)
    ("        " ++ where_conditions (c :: cs) ++ ";") _ ?_ ?_
  · simp [scriptLines]
  · exact infixB_refl _

/-- C6: a column whose type contains uniqueidentifier gets, in both the SET
clause and the SELECT list, the dialect ISNULL function with the nil-GUID
literal as fallback, never COALESCE and never the generic empty-string
default; every other column gets COALESCE of the source value with its
type-derived default in both places. -/
theorem C6_guid_isnull_convention (col : Column) :
    (containsStr col.type "uniqueidentifier" = true →
      set_entry col =
        "target." ++ col.name ++ " = ISNULL(src." ++ col.name ++
          ", \x2700000000-0000-0000-0000-000000000000\x27)" ∧
      select_entry col =
        "ISNULL(src." ++ col.name ++ ", \x2700000000-0000-0000-0000-000000000000\x27)") ∧
    (containsStr col.type "uniqueidentifier" = false →
      set_entry col =
        "target." ++ col.name ++ " = COALESCE(src." ++ col.name ++ ", " ++
          default_value col.type ++ ")" ∧
      select_entry col =
        "COALESCE(src." ++ col.name ++ ", " ++ default_value col.type ++ ")") := by
  cases h : containsStr col.type "uniqueidentifier" <;>
    simp [set_entry, select_entry, h]

/-- Witness for C6 on a GUID column and an integer column. -/
theorem C6_guid_isnull_convention_witness :
    set_entry { name := "Guid", type := "uniqueidentifier" } =
      "target.Guid = ISNULL(src.Guid, \x2700000000-0000-0000-0000-000000000000\x27)" ∧
    select_entry { name := "Id", type := "int" } = "COALESCE(src.Id, 0)" :=
  ⟨((C6_guid_isnull_convention { name := "Guid", type := "uniqueidentifier" }).1 rfl).1,
   ((C6_guid_isnull_convention { name := "Id", type := "int" }).2 rfl).2⟩

/-- C7: the INSERT column list and the SELECT value list each have exactly
one entry per input column, and the entry at each position is derived
from the column at that same position, so both lists preserve the input
order. -/
theorem C7_insert_select_completeness (cols : List Column) :
    (insert_list cols).length = cols.length ∧
    (select_list cols).length = cols.length ∧
    ∀ i, (h : i < cols.length) →
      (insert_list cols).get ⟨i, by simpa [insert_list] using h⟩ = (cols.get ⟨i, h⟩).name ∧
      (select_list cols).get ⟨i, by simpa [select_list] using h⟩ =
        select_entry (cols.get ⟨i, h⟩) := by
  refine ⟨by simp [insert_list], by simp [select_list], fun i h => ⟨?_, ?_⟩⟩
  · simp [insert_list]
  · simp [select_list]

/-- Witness for C7 on a two-column list at both positions. -/
theorem C7_insert_select_completeness_witness :
    (insert_list [{ name := "Id", type := "int" }, { name := "Name", type := "nvarchar(50)" }]).get
        ⟨1, by decide⟩ = "Name" ∧
    (select_list [{ name := "Id", type := "int" }, { name := "Name", type := "nvarchar(50)" }]).get
        ⟨0, by decide⟩ = select_entry { name := "Id", type := "int" } :=
  ⟨((C7_insert_select_completeness
      [{ name := "Id", type := "int" }, { name := "Name", type := "nvarchar(50)" }]).2.2 1
      (by decide)).1,
   ((C7_insert_select_completeness
      [{ name := "Id", type := "int" }, { name := "Name", type := "nvarchar(50)" }]).2.2 0
      (by decide)).2⟩

/-- C8: for every non-empty column list the join and identity key used
throughout the script is the name of the first column: the UPDATE join
condition line and both NOT EXISTS correlation lines, in the DELETE and
in the INSERT, read target-dot-key equals src-dot-key with that key, and
the joined script text contains those lines. -/
theorem C8_first_column_is_key (tt st : String) (c : Column) (cs : List Column) :
    (scriptLines tt st (c :: cs) c.name).get ⟨20, by simp [scriptLines]⟩ =
      "        target." ++ c.name ++ " = src." ++ c.name ∧
    (scriptLines tt st (c :: cs) c.name).get ⟨30, by simp [scriptLines]⟩ =
      "        WHERE target." ++ c.name ++ " = src." ++ c.name ∧
    (scriptLines tt st (c :: cs) c.name).get ⟨43, by simp [scriptLines]⟩ =
      "        WHERE target." ++ c.name ++ " = src." ++ c.name ∧
    ∃ s, generate_stored_procedure tt st (c :: cs) = Except.ok s ∧
      containsStr s ("        target." ++ c.name ++ " = src." ++ c.name) = true ∧
      containsStr s ("        WHERE target." ++ c.name ++ " = src." ++ c.name) = true := by
  refine ⟨rfl, rfl, rfl, _, rfl, ?_, ?_⟩
  · refine contains_joinSep "\n" (scriptLines tt st (c :: cs) c.name)
      ("        target." ++ c.name ++ " = src." ++ c.name) _ ?_ (infixB_refl _)
    simp [scriptLines]
  · refine contains_joinSep "\n" (scriptLines tt st (c :: cs) c.name)
      ("        WHERE target." ++ c.name ++ " = src." ++ c.name) _ ?_ (infixB_refl _)
    simp [scriptLines]

/-- C9: for every valid input the generated script starts with the line
USE [DW]; the database of the context switch is a hardcoded constant that
ignores the target table, the source table and the columns. -/
theorem C9_hardcoded_use_dw (tt st : String) (c : Column) (cs : List Column) :
    ∃ s, generate_stored_procedure tt st (c :: cs) = Except.ok s ∧
      firstLine s = "USE [DW]" :=
  ⟨_, rfl, rfl⟩

/-- C10: for every valid input the DELETE statement names the target table
and the source table verbatim with no alias declaration, while its
correlation line still references the target and src aliases; the UPDATE,
by contrast, declares both aliases next to the table references. -/
theorem C10_delete_aliases_undeclared (tt st : String) (c : Column) (cs : List Column) :
    (scriptLines tt st (c :: cs) c.name).get ⟨24, by simp [scriptLines]⟩ =
      "    DELETE target" ∧
    (scriptLines tt st (c :: cs) c.name).get ⟨26, by simp [scriptLines]⟩ =
      "        " ++ tt ∧
    (scriptLines tt st (c :: cs) c.name).get ⟨29, by simp [scriptLines]⟩ =
      "        FROM " ++ st ∧
    (scriptLines tt st (c :: cs) c.name).get ⟨30, by simp [scriptLines]⟩ =
      "        WHERE target." ++ c.name ++ " = src." ++ c.name ∧
    (scriptLines tt st (c :: cs) c.name).get ⟨16, by simp [scriptLines]⟩ =
      "        " ++ tt ++ " target" ∧
    (scriptLines tt st (c :: cs) c.name).get ⟨18, by simp [scriptLines]⟩ =
      "        " ++ st ++ " src" :=
  ⟨rfl, rfl, rfl, rfl, rfl, rfl⟩
